import Mathlib

/-!
Verification of the connectivity-microservice core: a shallow embedding of the
trace ledger, the two event-processing services, the gateway client mapping,
the consumer dispatch, the retry configuration and the token validator,
together with theorems settling the specified properties.
-/

deriving instance DecidableEq for Except

namespace Connectivity

/-- Flat JSON-ish value, enough for the payloads this code builds and passes. -/
inductive JsonPrim
  | null
  | boolVal (b : Bool)
  | numVal (n : Int)
  | strVal (s : String)
deriving DecidableEq, Repr

/-- A JSON object as an association list of fields. -/
abbrev JsonObj := List (String × JsonPrim)

/-- Outcome of one HTTP exchange performed by `BaseAPIClient.get`, `.post` or
`.put`: either a completed response with a status code and optional JSON body,
or a raised `requests.RequestException` (transport error, retries exhausted). -/
inductive HttpResult
  | response (status : Int) (body : Option JsonObj)
  | exn (msg : String)
deriving DecidableEq, Repr

/-- Trace status values, from `STATUS_CHOICES` in both trace models. -/
inductive TraceStatus
  | PENDING
  | SENT
  | FAILED
  | ERROR
deriving DecidableEq, Repr

/-! ### Gateway client (`infrastructure/external_apis/govcarpeta_client.py`) -/

/-- Result dictionary built by `GovcarpetaAPIClient.validate_citizen`. -/
structure ValidateResult where
  citizenExists : Bool
  citizen_data : Option JsonObj
  message : String
  status_code : Int
deriving DecidableEq, Repr

/-- Embeds `GovcarpetaAPIClient.validate_citizen`: 200 means the citizen exists and the
body is parsed by an unguarded `response.json()` — a missing or unparseable
body (`none`) raises there and the exception propagates, like a transport
exception; 204 means not-exists, and any other completed status is reported
as not-exists with the raw status. -/
def validate_citizen (r : HttpResult) : Except String ValidateResult :=
  match r with
  | .exn m => .error m
  | .response st body =>
    if st == 200 then
      match body with
      | some data =>
        .ok { citizenExists := true, citizen_data := some data
            , message := "Citizen found successfully", status_code := 200 }
      | none => .error "JSONDecodeError: Expecting value"
    else if st == 204 then
      .ok { citizenExists := false, citizen_data := none
          , message := "Citizen does not exist in the system", status_code := 204 }
    else
      .ok { citizenExists := false, citizen_data := none
          , message := "Unexpected response from external API: " ++ toString st
          , status_code := st }

/-- Result dictionary built by `GovcarpetaAPIClient.register_citizen`. -/
structure RegisterResult where
  success : Bool
  status_code : Int
  message : String
  data : Option JsonObj
deriving DecidableEq, Repr

/-- Embeds `GovcarpetaAPIClient.register_citizen`: 201 is success, any other completed
status is a failure recording the status in the message; an exception
propagates. -/
def register_citizen (r : HttpResult) : Except String RegisterResult :=
  match r with
  | .exn m => .error m
  | .response st body =>
    if st == 201 then
      .ok { success := true, status_code := 201
          , message := "Citizen registered successfully", data := body }
    else
      .ok { success := false, status_code := st
          , message := "Registration failed: " ++ toString st, data := body }

/-- Result dictionary built by `GovcarpetaAPIClient.authenticate_document`. -/
structure AuthDocResult where
  success : Bool
  status_code : Int
  message : String
  data : Option JsonObj
deriving DecidableEq, Repr

/-- Embeds `GovcarpetaAPIClient.authenticate_document`: 200 is success, any other
completed status is a failure recording the status in the message; an
exception propagates. -/
def authenticate_document (r : HttpResult) : Except String AuthDocResult :=
  match r with
  | .exn m => .error m
  | .response st body =>
    if st == 200 then
      .ok { success := true, status_code := 200
          , message := "Document authenticated successfully", data := body }
    else
      .ok { success := false, status_code := st
          , message := "Document authentication failed: " ++ toString st, data := body }

/-! ### Registration trace ledger (`apps/citizen_registration/models.py`) -/

/-- Row of `citizen_registration_traces`. -/
structure CitizenRegistrationTrace where
  message_id : String
  id_citizen : Int
  status : TraceStatus
  external_api_status_code : Option Int
  external_api_response : Option JsonObj
  error_message : String
deriving DecidableEq, Repr

/-- Embeds `CitizenRegistrationTrace.mark_as_sent`. -/
def CitizenRegistrationTrace.mark_as_sent (t : CitizenRegistrationTrace)
    (status_code : Int) (response_data : Option JsonObj) : CitizenRegistrationTrace :=
  { t with status := .SENT
         , external_api_status_code := some status_code
         , external_api_response := response_data }

/-- Embeds `CitizenRegistrationTrace.mark_as_error`. -/
def CitizenRegistrationTrace.mark_as_error (t : CitizenRegistrationTrace)
    (error_message : String) : CitizenRegistrationTrace :=
  { t with status := .ERROR, error_message := error_message }

/-- Embeds `objects.filter(message_id=...).first()` on the registration trace table. -/
def regFind (s : List CitizenRegistrationTrace) (mid : String) :
    Option CitizenRegistrationTrace :=
  s.find? (fun t => t.message_id == mid)

/-- Embeds `save()` on an existing registration trace row: replaces the row keyed by
the unique `message_id`. -/
def regSave (s : List CitizenRegistrationTrace) (t : CitizenRegistrationTrace) :
    List CitizenRegistrationTrace :=
  s.map (fun u => if u.message_id == t.message_id then t else u)

/-- Number of rows carrying a given message id. -/
def regCount (s : List CitizenRegistrationTrace) (mid : String) : Nat :=
  (s.filter (fun t => t.message_id == mid)).length

/-! ### Document trace ledger (`apps/document_authentication/models.py`) -/

/-- Row of `document_authentication_traces`; `event_published` models whether
`event_published_at` has been stamped. -/
structure DocumentAuthenticationTrace where
  message_id : String
  document_id : String
  id_citizen : Int
  document_title : String
  status : TraceStatus
  authenticated : Bool
  message : String
  external_api_status_code : Option Int
  event_published : Bool
deriving DecidableEq, Repr

/-- Embeds `DocumentAuthenticationTrace.mark_as_authenticated`. -/
def DocumentAuthenticationTrace.mark_as_authenticated (t : DocumentAuthenticationTrace)
    (status_code : Int) (success : Bool) (message : String) : DocumentAuthenticationTrace :=
  { t with status := .SENT
         , authenticated := success
         , message := message
         , external_api_status_code := some status_code }

/-- Embeds `DocumentAuthenticationTrace.mark_as_error`. -/
def DocumentAuthenticationTrace.mark_as_error (t : DocumentAuthenticationTrace)
    (error_message : String) : DocumentAuthenticationTrace :=
  { t with status := .ERROR, authenticated := false, message := error_message }

/-- Embeds `DocumentAuthenticationTrace.mark_event_published`. -/
def DocumentAuthenticationTrace.mark_event_published (t : DocumentAuthenticationTrace) :
    DocumentAuthenticationTrace :=
  { t with event_published := true }

/-- Embeds `objects.filter(message_id=...).first()` on the document trace table. -/
def docFind (s : List DocumentAuthenticationTrace) (mid : String) :
    Option DocumentAuthenticationTrace :=
  s.find? (fun t => t.message_id == mid)

/-- Embeds `save()` on an existing document trace row. -/
def docSave (s : List DocumentAuthenticationTrace) (t : DocumentAuthenticationTrace) :
    List DocumentAuthenticationTrace :=
  s.map (fun u => if u.message_id == t.message_id then t else u)

/-- Number of rows carrying a given message id. -/
def docCount (s : List DocumentAuthenticationTrace) (mid : String) : Nat :=
  (s.filter (fun t => t.message_id == mid)).length

/-! ### Registration service (`apps/citizen_registration/services.py`) -/

/-- Result of one processing attempt: the trace table afterwards, the value
returned by the service (or the exception it raised, as `Except.error`), and
how many gateway HTTP calls were made during the attempt. -/
structure RegProcessResult where
  store : List CitizenRegistrationTrace
  outcome : Except String CitizenRegistrationTrace
  externalCalls : Nat
deriving Repr

/-- Lines 65 to 93 of `CitizenRegistrationService.process_auth_registration_event`:
the gateway call and the terminal marking of the freshly created trace.
`store1` is the table after the PENDING row was created. -/
def reg_call_and_mark (store1 : List CitizenRegistrationTrace)
    (trace : CitizenRegistrationTrace) (api : HttpResult) : RegProcessResult :=
  match register_citizen api with
  | .error e =>
    let t := trace.mark_as_error e
    { store := regSave store1 t, outcome := .error e, externalCalls := 1 }
  | .ok resp =>
    if resp.success then
      let t := trace.mark_as_sent resp.status_code resp.data
      { store := regSave store1 t, outcome := .ok t, externalCalls := 1 }
    else
      let t := trace.mark_as_error resp.message
      { store := regSave store1 t, outcome := .ok t, externalCalls := 1 }

/-- Embeds `CitizenRegistrationService.process_auth_registration_event`: dedup lookup,
creation of the PENDING row, gateway call, terminal marking. -/
def process_auth_registration_event (store : List CitizenRegistrationTrace)
    (message_id : String) (id_citizen : Int) (api : HttpResult) : RegProcessResult :=
  match regFind store message_id with
  | some existing => { store := store, outcome := .ok existing, externalCalls := 0 }
  | none =>
    let trace : CitizenRegistrationTrace :=
      { message_id := message_id, id_citizen := id_citizen, status := .PENDING
      , external_api_status_code := none, external_api_response := none
      , error_message := "" }
    reg_call_and_mark (store ++ [trace]) trace api

/-- The IntegrityError message Django raises when `objects.create` hits the
unique constraint on `message_id`. -/
def dupKeyError : String := "IntegrityError: duplicate key value violates unique constraint"

/-- Embeds `process_auth_registration_event` when a competing worker commits a row for
the same message id between the dedup lookup (line 53) and `objects.create`
(line 59): `storeAtCreate` is the table state at create time. The unique
constraint makes the create raise, and nothing catches it — the try block
begins only after the create — so the error propagates to the consumer. -/
def reg_process_raced (storeAtLookup storeAtCreate : List CitizenRegistrationTrace)
    (message_id : String) (id_citizen : Int) (api : HttpResult) : RegProcessResult :=
  match regFind storeAtLookup message_id with
  | some existing => { store := storeAtLookup, outcome := .ok existing, externalCalls := 0 }
  | none =>
    if (regFind storeAtCreate message_id).isSome then
      { store := storeAtCreate, outcome := .error dupKeyError, externalCalls := 0 }
    else
      let trace : CitizenRegistrationTrace :=
        { message_id := message_id, id_citizen := id_citizen, status := .PENDING
        , external_api_status_code := none, external_api_response := none
        , error_message := "" }
      reg_call_and_mark (storeAtCreate ++ [trace]) trace api

/-! ### Document authentication service (`apps/document_authentication/services.py`) -/

/-- Result of one document processing attempt, as for registration. -/
structure DocProcessResult where
  store : List DocumentAuthenticationTrace
  outcome : Except String DocumentAuthenticationTrace
  externalCalls : Nat
deriving Repr

/-- Lines 69 to 99 of `DocumentAuthenticationService.process_authentication_request`:
the gateway call, `mark_as_authenticated`, the result publish, and the except
branch that runs `mark_as_error` plus a best-effort publish and re-raises.
`pub1` is the outcome of the first `publish_event` call made during the
attempt and `pub2` that of the second (reached only in the except branch). -/
def doc_call_mark_publish (store1 : List DocumentAuthenticationTrace)
    (trace : DocumentAuthenticationTrace) (api : HttpResult)
    (pub1 pub2 : Except String Unit) : DocProcessResult :=
  match authenticate_document api with
  | .error e =>
    let t := trace.mark_as_error e
    let store2 := docSave store1 t
    match pub1 with
    | .ok _ =>
      let t2 := t.mark_event_published
      { store := docSave store2 t2, outcome := .error e, externalCalls := 1 }
    | .error _ =>
      { store := store2, outcome := .error e, externalCalls := 1 }
  | .ok resp =>
    let success := resp.success && (resp.status_code == 200)
    let t := trace.mark_as_authenticated resp.status_code success resp.message
    let store2 := docSave store1 t
    match pub1 with
    | .ok _ =>
      let t2 := t.mark_event_published
      { store := docSave store2 t2, outcome := .ok t2, externalCalls := 1 }
    | .error pe =>
      let t2 := t.mark_as_error pe
      let store3 := docSave store2 t2
      match pub2 with
      | .ok _ =>
        let t3 := t2.mark_event_published
        { store := docSave store3 t3, outcome := .error pe, externalCalls := 1 }
      | .error _ =>
        { store := store3, outcome := .error pe, externalCalls := 1 }

/-- Embeds `DocumentAuthenticationService.process_authentication_request`: dedup
lookup, creation of the PENDING row, gateway call, terminal marking, result
publish. -/
def process_authentication_request (store : List DocumentAuthenticationTrace)
    (message_id document_id : String) (id_citizen : Int) (document_title : String)
    (api : HttpResult) (pub1 pub2 : Except String Unit) : DocProcessResult :=
  match docFind store message_id with
  | some existing => { store := store, outcome := .ok existing, externalCalls := 0 }
  | none =>
    let trace : DocumentAuthenticationTrace :=
      { message_id := message_id, document_id := document_id, id_citizen := id_citizen
      , document_title := document_title, status := .PENDING, authenticated := false
      , message := "", external_api_status_code := none, event_published := false }
    doc_call_mark_publish (store ++ [trace]) trace api pub1 pub2

/-- Embeds `process_authentication_request` raced between the dedup lookup (line 55)
and `objects.create` (line 61); the create is outside the try block, so a
duplicate-key error propagates. -/
def doc_process_raced (storeAtLookup storeAtCreate : List DocumentAuthenticationTrace)
    (message_id document_id : String) (id_citizen : Int) (document_title : String)
    (api : HttpResult) (pub1 pub2 : Except String Unit) : DocProcessResult :=
  match docFind storeAtLookup message_id with
  | some existing => { store := storeAtLookup, outcome := .ok existing, externalCalls := 0 }
  | none =>
    if (docFind storeAtCreate message_id).isSome then
      { store := storeAtCreate, outcome := .error dupKeyError, externalCalls := 0 }
    else
      let trace : DocumentAuthenticationTrace :=
        { message_id := message_id, document_id := document_id, id_citizen := id_citizen
        , document_title := document_title, status := .PENDING, authenticated := false
        , message := "", external_api_status_code := none, event_published := false }
      doc_call_mark_publish (storeAtCreate ++ [trace]) trace api pub1 pub2

/-! ### Consumers (`management/commands/*.py`, `infrastructure/rabbitmq/consumer.py`) -/

/-- Parsed body of an `auth.user.registered` event; `none` models an absent
key (`body.get(...)` returning `None`). -/
structure AuthRegisteredEvent where
  messageId : Option String
  idCitizen : Option Int
  name : Option String
  email : Option String
  timestamp : Option String
deriving DecidableEq, Repr

/-- Parsed body of a `document.authentication.requested` event. -/
structure DocAuthRequestedEvent where
  messageId : Option String
  documentId : Option String
  idCitizen : Option Int
  urlDocument : Option String
  documentTitle : Option String
deriving DecidableEq, Repr

/-- Result of a consumer `process_message` call: the table afterwards, the
exception it raised if any, and the number of gateway calls made. -/
structure RegConsumeResult where
  store : List CitizenRegistrationTrace
  raised : Option String
  externalCalls : Nat
deriving Repr

/-- Embeds `AuthUserRegisteredConsumer.process_message`: extract the five fields; if
`all([...])` fails — a field absent, or falsy like the empty string or the
integer 0 — log and return without creating a trace; otherwise run the
service, letting any exception propagate (it is re-raised). -/
def reg_process_message (store : List CitizenRegistrationTrace)
    (body : AuthRegisteredEvent) (api : HttpResult) : RegConsumeResult :=
  match body.messageId, body.idCitizen, body.name, body.email, body.timestamp with
  | some mid, some idc, some nm, some em, some ts =>
    if mid != "" && idc != 0 && nm != "" && em != "" && ts != "" then
      let r := process_auth_registration_event store mid idc api
      match r.outcome with
      | .ok _ => { store := r.store, raised := none, externalCalls := r.externalCalls }
      | .error e => { store := r.store, raised := some e, externalCalls := r.externalCalls }
    else
      { store := store, raised := none, externalCalls := 0 }
  | _, _, _, _, _ => { store := store, raised := none, externalCalls := 0 }

/-- Result of a document consumer `process_message` call. -/
structure DocConsumeResult where
  store : List DocumentAuthenticationTrace
  raised : Option String
  externalCalls : Nat
deriving Repr

/-- Embeds `DocumentAuthenticationConsumer.process_message`. -/
def doc_process_message (store : List DocumentAuthenticationTrace)
    (body : DocAuthRequestedEvent) (api : HttpResult)
    (pub1 pub2 : Except String Unit) : DocConsumeResult :=
  match body.messageId, body.documentId, body.idCitizen, body.urlDocument, body.documentTitle with
  | some mid, some docId, some idc, some urlDoc, some title =>
    if mid != "" && docId != "" && idc != 0 && urlDoc != "" && title != "" then
      let r := process_authentication_request store mid docId idc title api pub1 pub2
      match r.outcome with
      | .ok _ => { store := r.store, raised := none, externalCalls := r.externalCalls }
      | .error e => { store := r.store, raised := some e, externalCalls := r.externalCalls }
    else
      { store := store, raised := none, externalCalls := 0 }
  | _, _, _, _, _ => { store := store, raised := none, externalCalls := 0 }

/-- How the broker delivery is settled by `RabbitMQConsumer.on_message`. -/
inductive Settlement
  | ack
  | nackRequeue
  | nackDrop
deriving DecidableEq, Repr

/-- A delivery body: either undecodable JSON or a parsed event. -/
inductive Delivery (ev : Type)
  | malformed (raw : String)
  | parsed (body : ev)
deriving Repr

/-- Embeds `RabbitMQConsumer.on_message` for the registration consumer: JSON decode
failure is nacked without requeue; an exception from `process_message` is
nacked with requeue; otherwise the delivery is acked. -/
def reg_on_message (store : List CitizenRegistrationTrace)
    (d : Delivery AuthRegisteredEvent) (api : HttpResult) :
    RegConsumeResult × Settlement :=
  match d with
  | .malformed _ => ({ store := store, raised := none, externalCalls := 0 }, .nackDrop)
  | .parsed body =>
    let r := reg_process_message store body api
    match r.raised with
    | none => (r, .ack)
    | some _ => (r, .nackRequeue)

/-- Embeds `RabbitMQConsumer.on_message` for the document consumer. -/
def doc_on_message (store : List DocumentAuthenticationTrace)
    (d : Delivery DocAuthRequestedEvent) (api : HttpResult)
    (pub1 pub2 : Except String Unit) : DocConsumeResult × Settlement :=
  match d with
  | .malformed _ => ({ store := store, raised := none, externalCalls := 0 }, .nackDrop)
  | .parsed body =>
    let r := doc_process_message store body api pub1 pub2
    match r.raised with
    | none => (r, .ack)
    | some _ => (r, .nackRequeue)

/-! ### Synchronous lookup endpoint (`apps/citizen_validation/external_views.py`) -/

/-- Body of an HTTP response produced by the view. -/
inductive ResponseBody
  | empty
  | obj (o : JsonObj)
deriving DecidableEq, Repr

/-- Value of one decimal digit character. -/
def digitVal (c : Char) : Option Nat :=
  if c.isDigit then some (c.toNat - '0'.toNat) else none

/-- Accumulate decimal digits; `none` accumulator means no digit seen yet. -/
def parseNatDigits : List Char → Option Nat → Option Nat
  | [], acc => acc
  | c :: cs, acc =>
    match digitVal c, acc with
    | some d, some a => parseNatDigits cs (some (a * 10 + d))
    | some d, none => parseNatDigits cs (some d)
    | none, _ => none

/-- Python `int(s)` on the route-matched id: an optional sign followed by at
least one decimal digit, `none` when `ValueError` would be raised. -/
def pyInt (s : String) : Option Int :=
  match s.data with
  | '-' :: rest => (parseNatDigits rest none).map (fun n => -(n : Int))
  | '+' :: rest => (parseNatDigits rest none).map (fun n => (n : Int))
  | ds => (parseNatDigits ds none).map (fun n => (n : Int))

/-- Embeds `int(idCitizen)` followed by the positive check (`citizen_id_int <= 0`
raises `ValueError`, caught together with parse failures). -/
def parseCitizenId (s : String) : Option Int :=
  match pyInt s with
  | none => none
  | some n => if n ≤ 0 then none else some n

/-- Embeds `check_citizen_exists` after token validation has passed: status code and
body of the HTTP response, given the outcome of the upstream exchange. -/
def check_citizen_exists (idCitizen : String) (api : HttpResult) :
    Int × ResponseBody :=
  match parseCitizenId idCitizen with
  | none => (400, .obj [("error", .strVal "Invalid citizen ID")])
  | some _ =>
    match validate_citizen api with
    | .error _ => (500, .obj [("error", .strVal "Internal server error")])
    | .ok r =>
      if r.citizenExists then
        (200, .obj [("exists", .boolVal true)])
      else
        (204, .empty)

/-! ### Transport retry configuration (`infrastructure/external_apis/base_client.py`) -/

/-- The fields of urllib3's `Retry` object that `_create_session` configures. -/
structure Retry where
  total : Nat
  backoff_factor : Nat
  status_forcelist : List Int
  allowed_methods : List String
deriving DecidableEq, Repr

/-- The retry strategy installed by `BaseAPIClient._create_session`. -/
def sessionRetryStrategy : Retry :=
  { total := 3
  , backoff_factor := 1
  , status_forcelist := [429, 500, 502, 503, 504]
  , allowed_methods := ["HEAD", "GET", "OPTIONS", "POST"] }

/-- urllib3 `Retry._is_method_retryable`: status-based and read-error retries
apply only to the configured allowed methods. -/
def Retry.is_method_retryable (r : Retry) (method : String) : Bool :=
  r.allowed_methods.contains method

/-- urllib3 retries a completed response iff the method is retryable and its
status is in the forcelist. -/
def Retry.retries_status (r : Retry) (method : String) (status : Int) : Bool :=
  r.is_method_retryable method && r.status_forcelist.contains status

/-- urllib3 retries connection-establishment errors for any method as long as
the retry budget is positive; `allowed_methods` does not gate connect retries. -/
def Retry.retries_connect_error (r : Retry) : Bool :=
  decide (0 < r.total)

/-- urllib3 `Retry.get_backoff_time`: no sleep before the first retry, then
`backoff_factor * 2 ^ (consecutive_errors - 1)` seconds, capped at 120. -/
def Retry.get_backoff_time (r : Retry) (consecutive_errors : Nat) : Nat :=
  if consecutive_errors ≤ 1 then 0
  else min 120 (r.backoff_factor * 2 ^ (consecutive_errors - 1))

/-- HTTP method used by `validate_citizen` (`self.get`). -/
def validateCitizenMethod : String := "GET"

/-- HTTP method used by `register_citizen` (`self.post`). -/
def registerCitizenMethod : String := "POST"

/-- HTTP method used by `authenticate_document` (`self.put`). -/
def authenticateDocumentMethod : String := "PUT"

/-- Embeds `EXTERNAL_API_TIMEOUT` default from `settings.py`, passed as the per-call
timeout by every `get`/`post`/`put`. -/
def EXTERNAL_API_TIMEOUT : Nat := 30

/-! ### Token validator (`infrastructure/auth/oauth2_validator.py`) -/

/-- Claims carried by a decoded JWT payload; `none` models an absent claim. -/
structure TokenPayload where
  exp : Option Int
  client_id : Option String
  scope : Option String
  grant_type : Option String
deriving DecidableEq, Repr

/-- A bearer token as the jwt library sees it: structural well-formedness,
signature validity against the shared secret, and the payload claims. -/
structure JwtToken where
  wellFormed : Bool
  signatureValid : Bool
  payload : TokenPayload
deriving DecidableEq, Repr

/-- Outcome of `jwt.decode`. -/
inductive DecodeResult
  | ok (payload : TokenPayload)
  | expiredSignature
  | invalidToken (msg : String)
deriving DecidableEq, Repr

/-- Embeds `jwt.decode(token, secret, algorithms=[alg], options=...)` with
`verify_signature`, `verify_exp` and `require: [exp, client_id]`: a malformed
token or bad signature raises `InvalidTokenError`, a missing required claim
raises `MissingRequiredClaimError` (a subclass of `InvalidTokenError`), and an
expiry at or before `now` raises `ExpiredSignatureError`. -/
def jwtDecode (t : JwtToken) (now : Int) : DecodeResult :=
  if !t.wellFormed then
    .invalidToken "Not enough segments"
  else if !t.signatureValid then
    .invalidToken "Signature verification failed"
  else if t.payload.exp.isNone then
    .invalidToken "Token is missing the \"exp\" claim"
  else if t.payload.client_id.isNone then
    .invalidToken "Token is missing the \"client_id\" claim"
  else if t.payload.exp.getD 0 ≤ now then
    .expiredSignature
  else
    .ok t.payload

/-- The dictionary returned by `validate_token`; the failure dictionaries carry
only `valid` and `error`, modelled with `none` in the remaining fields. -/
structure ValidationResult where
  valid : Bool
  client_id : Option String
  scope : Option String
  exp : Option Int
  error : Option String
deriving DecidableEq, Repr

/-- Python truthiness of an optional string (`None` and the empty string are
falsy). -/
def truthyStr : Option String → Bool
  | none => false
  | some s => !(s == "")

/-- Embeds `OAuth2ClientCredentialsValidator.validate_token`: an empty token is
refused outright; otherwise the jwt decode runs, then the grant-type check
(`if grant_type and grant_type != 'client_credentials'`), and every raised
error is caught and turned into a failure dictionary. The input `none` models
the falsy token string. -/
def validate_token (token : Option JwtToken) (now : Int) : ValidationResult :=
  match token with
  | none =>
    { valid := false, client_id := none, scope := none, exp := none
    , error := some "No token provided" }
  | some t =>
    match jwtDecode t now with
    | .ok payload =>
      if truthyStr payload.grant_type && payload.grant_type != some "client_credentials" then
        { valid := false, client_id := none, scope := none, exp := none
        , error := some "Token is not a client_credentials grant type" }
      else
        { valid := true, client_id := payload.client_id
        , scope := some (payload.scope.getD ""), exp := payload.exp, error := none }
    | .expiredSignature =>
      { valid := false, client_id := none, scope := none, exp := none
      , error := some "Token has expired" }
    | .invalidToken m =>
      { valid := false, client_id := none, scope := none, exp := none
      , error := some ("Invalid token: " ++ m) }

/-! ### Ledger helper lemmas -/

theorem map_ite_id {α : Type} (s : List α) (f : α → Bool) (t : α)
    (h : ∀ u ∈ s, f u = false) :
    s.map (fun u => if f u then t else u) = s := by
  induction s with
  | nil => rfl
  | cons a s ih =>
    have ha := h a (List.mem_cons_self a s)
    simp only [List.map_cons, ha, Bool.false_eq_true, if_false, List.cons.injEq, true_and]
    exact ih (fun u hu => h u (List.mem_cons_of_mem a hu))

theorem regSave_append {s : List CitizenRegistrationTrace} {mid : String}
    (h : regFind s mid = none) {p t : CitizenRegistrationTrace}
    (hp : p.message_id = mid) (ht : t.message_id = mid) :
    regSave (s ++ [p]) t = s ++ [t] := by
  unfold regSave
  rw [List.map_append]
  congr 1
  · apply map_ite_id
    intro u hu
    have hneq := List.find?_eq_none.mp h u hu
    rw [ht]
    cases hb : (u.message_id == mid) with
    | true => exact absurd hb hneq
    | false => rfl
  · simp [hp, ht]

theorem regFind_append_left_none {s : List CitizenRegistrationTrace} {mid : String}
    (h : regFind s mid = none) (ts : List CitizenRegistrationTrace) :
    regFind (s ++ ts) mid = regFind ts mid := by
  unfold regFind at *
  rw [List.find?_append, h, Option.none_or]

theorem regFind_snoc {s : List CitizenRegistrationTrace} {mid : String}
    (h : regFind s mid = none) {t : CitizenRegistrationTrace} (ht : t.message_id = mid) :
    regFind (s ++ [t]) mid = some t := by
  rw [regFind_append_left_none h]
  unfold regFind
  exact List.find?_cons_of_pos [] (by simp [ht])

theorem regCount_snoc_fresh {s : List CitizenRegistrationTrace} {mid : String}
    (h : regFind s mid = none) {t : CitizenRegistrationTrace} (ht : t.message_id = mid) :
    regCount (s ++ [t]) mid = 1 := by
  unfold regCount
  rw [List.filter_append]
  have hnil : s.filter (fun u => u.message_id == mid) = [] :=
    List.filter_eq_nil_iff.mpr (List.find?_eq_none.mp h)
  simp [hnil, ht]

theorem docSave_append {s : List DocumentAuthenticationTrace} {mid : String}
    (h : docFind s mid = none) {p t : DocumentAuthenticationTrace}
    (hp : p.message_id = mid) (ht : t.message_id = mid) :
    docSave (s ++ [p]) t = s ++ [t] := by
  unfold docSave
  rw [List.map_append]
  congr 1
  · apply map_ite_id
    intro u hu
    have hneq := List.find?_eq_none.mp h u hu
    rw [ht]
    cases hb : (u.message_id == mid) with
    | true => exact absurd hb hneq
    | false => rfl
  · simp [hp, ht]

theorem docFind_append_left_none {s : List DocumentAuthenticationTrace} {mid : String}
    (h : docFind s mid = none) (ts : List DocumentAuthenticationTrace) :
    docFind (s ++ ts) mid = docFind ts mid := by
  unfold docFind at *
  rw [List.find?_append, h, Option.none_or]

theorem docFind_snoc {s : List DocumentAuthenticationTrace} {mid : String}
    (h : docFind s mid = none) {t : DocumentAuthenticationTrace} (ht : t.message_id = mid) :
    docFind (s ++ [t]) mid = some t := by
  rw [docFind_append_left_none h]
  unfold docFind
  exact List.find?_cons_of_pos [] (by simp [ht])

theorem docCount_snoc_fresh {s : List DocumentAuthenticationTrace} {mid : String}
    (h : docFind s mid = none) {t : DocumentAuthenticationTrace} (ht : t.message_id = mid) :
    docCount (s ++ [t]) mid = 1 := by
  unfold docCount
  rw [List.filter_append]
  have hnil : s.filter (fun u => u.message_id == mid) = [] :=
    List.filter_eq_nil_iff.mpr (List.find?_eq_none.mp h)
  simp [hnil, ht]

/-- Processing a fresh message id appends exactly one row, keyed by that id,
and makes exactly one gateway call. -/
theorem reg_process_fresh {store : List CitizenRegistrationTrace} {mid : String}
    {idc : Int} (api : HttpResult) (h : regFind store mid = none) :
    ∃ t, (process_auth_registration_event store mid idc api).store = store ++ [t]
      ∧ t.message_id = mid
      ∧ (process_auth_registration_event store mid idc api).externalCalls = 1 := by
  cases api with
  | exn m =>
    simp only [process_auth_registration_event, reg_call_and_mark, register_citizen, h]
    rw [regSave_append h rfl rfl]
    refine ⟨_, rfl, ?_, ?_⟩ <;> first | rfl | trivial
  | response st body =>
    rcases hst : (st == 201) with _ | _ <;>
      simp only [process_auth_registration_event, reg_call_and_mark, register_citizen, h, hst,
        Bool.false_eq_true, if_true, if_false] <;>
      rw [regSave_append h rfl rfl] <;>
      (refine ⟨_, rfl, ?_, ?_⟩ <;> first | rfl | trivial)

/-- Dedup hit: an existing row short-circuits the registration service. -/
theorem reg_process_hit {store : List CitizenRegistrationTrace} {mid : String}
    (idc : Int) (api : HttpResult) {t : CitizenRegistrationTrace}
    (h : regFind store mid = some t) :
    process_auth_registration_event store mid idc api =
      { store := store, outcome := .ok t, externalCalls := 0 } := by
  unfold process_auth_registration_event
  rw [h]

/-- Processing a fresh document message id appends exactly one row, keyed by
that id, and makes exactly one gateway call. -/
theorem doc_process_fresh {store : List DocumentAuthenticationTrace} {mid : String}
    {docId : String} {idc : Int} {title : String} (api : HttpResult)
    (pub1 pub2 : Except String Unit) (h : docFind store mid = none) :
    ∃ t, (process_authentication_request store mid docId idc title api pub1 pub2).store
          = store ++ [t]
      ∧ t.message_id = mid
      ∧ (process_authentication_request store mid docId idc title api pub1 pub2).externalCalls = 1 := by
  cases api with
  | exn m =>
    cases pub1 with
    | ok u =>
      simp only [process_authentication_request, doc_call_mark_publish, authenticate_document, h]
      rw [docSave_append h rfl rfl, docSave_append h rfl rfl]
      refine ⟨_, rfl, ?_, ?_⟩ <;> first | rfl | trivial
    | error e =>
      simp only [process_authentication_request, doc_call_mark_publish, authenticate_document, h]
      rw [docSave_append h rfl rfl]
      refine ⟨_, rfl, ?_, ?_⟩ <;> first | rfl | trivial
  | response st body =>
    rcases hst : (st == 200) with _ | _
    · cases pub1 with
      | ok u =>
        simp only [process_authentication_request, doc_call_mark_publish, authenticate_document,
          h, hst, Bool.false_eq_true, if_false]
        rw [docSave_append h rfl rfl, docSave_append h rfl rfl]
        refine ⟨_, rfl, ?_, ?_⟩ <;> first | rfl | trivial
      | error e =>
        cases pub2 with
        | ok u =>
          simp only [process_authentication_request, doc_call_mark_publish, authenticate_document,
            h, hst, Bool.false_eq_true, if_false]
          rw [docSave_append h rfl rfl, docSave_append h rfl rfl, docSave_append h rfl rfl]
          refine ⟨_, rfl, ?_, ?_⟩ <;> first | rfl | trivial
        | error e2 =>
          simp only [process_authentication_request, doc_call_mark_publish, authenticate_document,
            h, hst, Bool.false_eq_true, if_false]
          rw [docSave_append h rfl rfl, docSave_append h rfl rfl]
          refine ⟨_, rfl, ?_, ?_⟩ <;> first | rfl | trivial
    · cases pub1 with
      | ok u =>
        simp only [process_authentication_request, doc_call_mark_publish, authenticate_document,
          h, hst, if_true]
        rw [docSave_append h rfl rfl, docSave_append h rfl rfl]
        refine ⟨_, rfl, ?_, ?_⟩ <;> first | rfl | trivial
      | error e =>
        cases pub2 with
        | ok u =>
          simp only [process_authentication_request, doc_call_mark_publish, authenticate_document,
            h, hst, if_true]
          rw [docSave_append h rfl rfl, docSave_append h rfl rfl, docSave_append h rfl rfl]
          refine ⟨_, rfl, ?_, ?_⟩ <;> first | rfl | trivial
        | error e2 =>
          simp only [process_authentication_request, doc_call_mark_publish, authenticate_document,
            h, hst, if_true]
          rw [docSave_append h rfl rfl, docSave_append h rfl rfl]
          refine ⟨_, rfl, ?_, ?_⟩ <;> first | rfl | trivial

/-- Dedup hit: an existing row short-circuits the document service. -/
theorem doc_process_hit {store : List DocumentAuthenticationTrace} {mid : String}
    (docId : String) (idc : Int) (title : String) (api : HttpResult)
    (pub1 pub2 : Except String Unit) {t : DocumentAuthenticationTrace}
    (h : docFind store mid = some t) :
    process_authentication_request store mid docId idc title api pub1 pub2 =
      { store := store, outcome := .ok t, externalCalls := 0 } := by
  unfold process_authentication_request
  rw [h]

/-- A transport exception on a fresh registration id leaves one ERROR row and
re-raises. -/
theorem reg_process_exn {store : List CitizenRegistrationTrace} {mid : String}
    {idc : Int} (em : String) (h : regFind store mid = none) :
    process_auth_registration_event store mid idc (.exn em) =
      { store := store ++
          [{ message_id := mid, id_citizen := idc, status := .ERROR
           , external_api_status_code := none, external_api_response := none
           , error_message := em }]
      , outcome := .error em, externalCalls := 1 } := by
  simp only [process_auth_registration_event, reg_call_and_mark, register_citizen, h]
  rw [regSave_append h rfl rfl]
  rfl

/-! ### Claims about the processing pipelines -/

/-- C1: for every valid inbound event, redelivering a message with the same
message id produces exactly one trace row and at most one external HTTP call:
the first processing appends the single row and makes the single gateway call,
and the second processing finds the existing trace, returns it, leaves the
table unchanged and does not invoke the gateway client again — in both the
registration and the document-authentication pipelines. -/
theorem redelivery_idempotent
    (regStore : List CitizenRegistrationTrace) (mid : String) (idc : Int)
    (api1 api2 : HttpResult)
    (docStore : List DocumentAuthenticationTrace) (dmid docId : String) (didc : Int)
    (title : String) (dapi1 dapi2 : HttpResult) (p1 p2 q1 q2 : Except String Unit)
    (hreg : regFind regStore mid = none) (hdoc : docFind docStore dmid = none) :
    (regCount (process_auth_registration_event regStore mid idc api1).store mid = 1
      ∧ (process_auth_registration_event regStore mid idc api1).externalCalls = 1
      ∧ (process_auth_registration_event
            (process_auth_registration_event regStore mid idc api1).store mid idc api2).store
          = (process_auth_registration_event regStore mid idc api1).store
      ∧ (process_auth_registration_event
            (process_auth_registration_event regStore mid idc api1).store mid idc
            api2).externalCalls = 0
      ∧ ∃ t, regFind (process_auth_registration_event regStore mid idc api1).store mid = some t
          ∧ (process_auth_registration_event
                (process_auth_registration_event regStore mid idc api1).store mid idc
                api2).outcome = .ok t)
    ∧ (docCount (process_authentication_request docStore dmid docId didc title dapi1 p1 p2).store
          dmid = 1
      ∧ (process_authentication_request docStore dmid docId didc title dapi1 p1 p2).externalCalls
          = 1
      ∧ (process_authentication_request
            (process_authentication_request docStore dmid docId didc title dapi1 p1 p2).store
            dmid docId didc title dapi2 q1 q2).store
          = (process_authentication_request docStore dmid docId didc title dapi1 p1 p2).store
      ∧ (process_authentication_request
            (process_authentication_request docStore dmid docId didc title dapi1 p1 p2).store
            dmid docId didc title dapi2 q1 q2).externalCalls = 0
      ∧ ∃ t, docFind (process_authentication_request docStore dmid docId didc title dapi1
                p1 p2).store dmid = some t
          ∧ (process_authentication_request
                (process_authentication_request docStore dmid docId didc title dapi1 p1 p2).store
                dmid docId didc title dapi2 q1 q2).outcome = .ok t) := by
  constructor
  · obtain ⟨t1, hs1, hmid1, hc1⟩ := reg_process_fresh api1 hreg
    have hfind : regFind (process_auth_registration_event regStore mid idc api1).store mid
        = some t1 := by
      rw [hs1]
      exact regFind_snoc hreg hmid1
    have hhit := reg_process_hit idc api2 hfind
    refine ⟨?_, hc1, ?_, ?_, t1, hfind, ?_⟩
    · rw [hs1]
      exact regCount_snoc_fresh hreg hmid1
    · rw [hhit]
    · rw [hhit]
    · rw [hhit]
  · obtain ⟨t1, hs1, hmid1, hc1⟩ := doc_process_fresh dapi1 p1 p2 hdoc
    have hfind : docFind (process_authentication_request docStore dmid docId didc title
        dapi1 p1 p2).store dmid = some t1 := by
      rw [hs1]
      exact docFind_snoc hdoc hmid1
    have hhit := doc_process_hit docId didc title dapi2 q1 q2 hfind
    refine ⟨?_, hc1, ?_, ?_, t1, hfind, ?_⟩
    · rw [hs1]
      exact docCount_snoc_fresh hdoc hmid1
    · rw [hhit]
    · rw [hhit]
    · rw [hhit]

/-- Witness for `redelivery_idempotent`: the second delivery of the scenario
event makes no external call, in either pipeline. -/
theorem redelivery_idempotent_witness :
    (process_auth_registration_event
        (process_auth_registration_event [] "m1" 42 (HttpResult.response 201 none)).store
        "m1" 42 (HttpResult.response 201 none)).externalCalls = 0
    ∧ (process_authentication_request
        (process_authentication_request [] "m2" "d1" 7 "ttl" (HttpResult.response 200 none)
          (Except.ok ()) (Except.ok ())).store
        "m2" "d1" 7 "ttl" (HttpResult.response 200 none) (Except.ok ())
        (Except.ok ())).externalCalls = 0 := by
  have h := redelivery_idempotent [] "m1" 42 (HttpResult.response 201 none)
    (HttpResult.response 201 none) [] "m2" "d1" 7 "ttl" (HttpResult.response 200 none)
    (HttpResult.response 200 none) (Except.ok ()) (Except.ok ()) (Except.ok ()) (Except.ok ())
    rfl rfl
  exact ⟨h.1.2.2.2.1, h.2.2.2.2.1⟩

/-- C9: a trace row that already exists for a message id — in any status,
including ERROR left by a failed attempt — makes later processing perform no
external call and return the row as-is; in particular, after a transport error
marked the trace ERROR and the consumer requeued, the redelivery
short-circuits on the existing ERROR trace and never re-attempts the call. -/
theorem existing_trace_short_circuits
    (regStore : List CitizenRegistrationTrace) (mid : String) (idc : Int) (api : HttpResult)
    (t : CitizenRegistrationTrace) (h : regFind regStore mid = some t)
    (docStore : List DocumentAuthenticationTrace) (dmid docId : String) (didc : Int)
    (title : String) (dapi : HttpResult) (p1 p2 : Except String Unit)
    (u : DocumentAuthenticationTrace) (hd : docFind docStore dmid = some u)
    (freshStore : List CitizenRegistrationTrace) (fmid : String) (fidc : Int) (em : String)
    (hf : regFind freshStore fmid = none) :
    process_auth_registration_event regStore mid idc api =
      { store := regStore, outcome := .ok t, externalCalls := 0 }
    ∧ process_authentication_request docStore dmid docId didc title dapi p1 p2 =
      { store := docStore, outcome := .ok u, externalCalls := 0 }
    ∧ ((process_auth_registration_event freshStore fmid fidc (.exn em)).outcome = .error em
      ∧ ∃ te, regFind (process_auth_registration_event freshStore fmid fidc (.exn em)).store fmid
            = some te
          ∧ te.status = .ERROR
          ∧ ∀ api2, process_auth_registration_event
                (process_auth_registration_event freshStore fmid fidc (.exn em)).store fmid fidc
                api2
              = { store := (process_auth_registration_event freshStore fmid fidc (.exn em)).store
                , outcome := .ok te, externalCalls := 0 }) := by
  refine ⟨reg_process_hit idc api h, doc_process_hit docId didc title dapi p1 p2 hd, ?_, ?_⟩
  · rw [reg_process_exn em hf]
  · rw [reg_process_exn em hf]
    refine ⟨_, regFind_snoc hf rfl, rfl, ?_⟩
    intro api2
    exact reg_process_hit fidc api2 (regFind_snoc hf rfl)

/-- Witness for `existing_trace_short_circuits`: an ERROR row left by a failed
attempt short-circuits the redelivery with no gateway call. -/
theorem existing_trace_short_circuits_witness :
    process_auth_registration_event
        [{ message_id := "m1", id_citizen := 42, status := TraceStatus.ERROR
         , external_api_status_code := none, external_api_response := none
         , error_message := "connection refused" }]
        "m1" 42 (HttpResult.response 201 none) =
      { store := [{ message_id := "m1", id_citizen := 42, status := TraceStatus.ERROR
                  , external_api_status_code := none, external_api_response := none
                  , error_message := "connection refused" }]
      , outcome := .ok { message_id := "m1", id_citizen := 42, status := TraceStatus.ERROR
                       , external_api_status_code := none, external_api_response := none
                       , error_message := "connection refused" }
      , externalCalls := 0 } := by
  have h := existing_trace_short_circuits
    [{ message_id := "m1", id_citizen := 42, status := TraceStatus.ERROR
     , external_api_status_code := none, external_api_response := none
     , error_message := "connection refused" }]
    "m1" 42 (HttpResult.response 201 none) _ rfl
    [{ message_id := "m2", document_id := "d1", id_citizen := 7, document_title := "ttl"
     , status := TraceStatus.SENT, authenticated := true, message := ""
     , external_api_status_code := some 200, event_published := true }]
    "m2" "d1" 7 "ttl" (HttpResult.response 200 none) (Except.ok ()) (Except.ok ()) _ rfl
    [] "m3" 9 "timeout" rfl
  exact h.1

/-- C7: a delivery whose event body is missing any required field creates no
trace row and is settled by a plain return, so `on_message` acknowledges it
and the broker never redelivers — in both consumers. -/
theorem missing_field_no_trace_acked
    (store : List CitizenRegistrationTrace) (b : AuthRegisteredEvent) (api : HttpResult)
    (dstore : List DocumentAuthenticationTrace) (db : DocAuthRequestedEvent)
    (dapi : HttpResult) (p1 p2 : Except String Unit)
    (hb : b.messageId = none ∨ b.idCitizen = none ∨ b.name = none ∨ b.email = none
      ∨ b.timestamp = none)
    (hdb : db.messageId = none ∨ db.documentId = none ∨ db.idCitizen = none
      ∨ db.urlDocument = none ∨ db.documentTitle = none) :
    reg_on_message store (.parsed b) api =
      ({ store := store, raised := none, externalCalls := 0 }, .ack)
    ∧ doc_on_message dstore (.parsed db) dapi p1 p2 =
      ({ store := dstore, raised := none, externalCalls := 0 }, .ack) := by
  constructor
  · rcases b with ⟨m1, i1, n1, e1, t1⟩
    cases m1 <;> cases i1 <;> cases n1 <;> cases e1 <;> cases t1 <;>
      simp_all [reg_on_message, reg_process_message]
  · rcases db with ⟨m1, d1, i1, u1, t1⟩
    cases m1 <;> cases d1 <;> cases i1 <;> cases u1 <;> cases t1 <;>
      simp_all [doc_on_message, doc_process_message]

/-- Witness for `missing_field_no_trace_acked`: events missing `messageId`
are acked with no trace created. -/
theorem missing_field_no_trace_acked_witness :
    reg_on_message []
        (.parsed { messageId := none, idCitizen := some 42, name := some "A"
                 , email := some "a@b.com", timestamp := some "2024-01-01T00:00:00Z" })
        (HttpResult.response 201 none) =
      ({ store := [], raised := none, externalCalls := 0 }, .ack)
    ∧ doc_on_message []
        (.parsed { messageId := none, documentId := some "d", idCitizen := some 7
                 , urlDocument := some "u", documentTitle := some "t" })
        (HttpResult.response 200 none) (Except.ok ()) (Except.ok ()) =
      ({ store := [], raised := none, externalCalls := 0 }, .ack) :=
  missing_field_no_trace_acked [] _ (HttpResult.response 201 none) [] _
    (HttpResult.response 200 none) (Except.ok ()) (Except.ok ())
    (Or.inl rfl) (Or.inl rfl)

/-- C2 counterexample: with the winner's row committed between the dedup
lookup and the create, the loser's processing ends in the duplicate-key error
instead of returning the winner's row as an idempotent hit (it does make no
external call). -/
theorem raced_create_counterexample :
    (reg_process_raced []
        [{ message_id := "m1", id_citizen := 42, status := TraceStatus.SENT
         , external_api_status_code := some 201, external_api_response := none
         , error_message := "" }]
        "m1" 42 (HttpResult.response 201 none)).outcome = Except.error dupKeyError
    ∧ (reg_process_raced []
        [{ message_id := "m1", id_citizen := 42, status := TraceStatus.SENT
         , external_api_status_code := some 201, external_api_response := none
         , error_message := "" }]
        "m1" 42 (HttpResult.response 201 none)).outcome ≠
      Except.ok { message_id := "m1", id_citizen := 42, status := TraceStatus.SENT
                , external_api_status_code := some 201, external_api_response := none
                , error_message := "" }
    ∧ (reg_process_raced []
        [{ message_id := "m1", id_citizen := 42, status := TraceStatus.SENT
         , external_api_status_code := some 201, external_api_response := none
         , error_message := "" }]
        "m1" 42 (HttpResult.response 201 none)).externalCalls = 0 := by
  decide

/-- C2 (amended): when the dedup lookup misses but the winner's row is present
at create time, the loser's create fails with the duplicate-key error, which
is not converted into a dedup hit but propagates out of the service (the
consumer then nacks with requeue); the loser makes no external call and leaves
the table unchanged, and the subsequent redelivery finds the winner's row and
short-circuits, so concurrent attempts still collapse to the same single
row — in both pipelines. -/
theorem raced_create_propagates
    (s0 s1 : List CitizenRegistrationTrace) (mid : String) (idc : Int) (api api2 : HttpResult)
    (w : CitizenRegistrationTrace) (h0 : regFind s0 mid = none) (h1 : regFind s1 mid = some w)
    (d0 d1 : List DocumentAuthenticationTrace) (dmid docId : String) (didc : Int)
    (title : String) (dapi dapi2 : HttpResult) (p1 p2 q1 q2 : Except String Unit)
    (v : DocumentAuthenticationTrace) (g0 : docFind d0 dmid = none)
    (g1 : docFind d1 dmid = some v) :
    reg_process_raced s0 s1 mid idc api =
      { store := s1, outcome := .error dupKeyError, externalCalls := 0 }
    ∧ process_auth_registration_event s1 mid idc api2 =
      { store := s1, outcome := .ok w, externalCalls := 0 }
    ∧ doc_process_raced d0 d1 dmid docId didc title dapi p1 p2 =
      { store := d1, outcome := .error dupKeyError, externalCalls := 0 }
    ∧ process_authentication_request d1 dmid docId didc title dapi2 q1 q2 =
      { store := d1, outcome := .ok v, externalCalls := 0 } := by
  refine ⟨?_, reg_process_hit idc api2 h1, ?_, doc_process_hit docId didc title dapi2 q1 q2 g1⟩
  · simp [reg_process_raced, h0, h1]
  · simp [doc_process_raced, g0, g1]

/-- Witness for `raced_create_propagates`: concrete race on message id `m1`. -/
theorem raced_create_propagates_witness :
    reg_process_raced []
        [{ message_id := "m1", id_citizen := 42, status := TraceStatus.PENDING
         , external_api_status_code := none, external_api_response := none
         , error_message := "" }]
        "m1" 42 (HttpResult.response 201 none) =
      { store := [{ message_id := "m1", id_citizen := 42, status := TraceStatus.PENDING
                  , external_api_status_code := none, external_api_response := none
                  , error_message := "" }]
      , outcome := .error dupKeyError, externalCalls := 0 } := by
  have h := raced_create_propagates []
    [{ message_id := "m1", id_citizen := 42, status := TraceStatus.PENDING
     , external_api_status_code := none, external_api_response := none
     , error_message := "" }]
    "m1" 42 (HttpResult.response 201 none) (HttpResult.response 201 none) _ rfl rfl
    []
    [{ message_id := "m2", document_id := "d1", id_citizen := 7, document_title := "ttl"
     , status := TraceStatus.PENDING, authenticated := false, message := ""
     , external_api_status_code := none, event_published := false }]
    "m2" "d1" 7 "ttl" (HttpResult.response 200 none) (HttpResult.response 200 none)
    (Except.ok ()) (Except.ok ()) (Except.ok ()) (Except.ok ()) _ rfl rfl
  exact h.1

/-- C3: the code contradicts the claim at this input — the document call
succeeds with status 200 and the trace is marked SENT, but when the result
publish then raises, the generic except branch runs `mark_as_error`,
overwriting the terminal state: the stored trace ends in status ERROR with
`authenticated = false` and the publish error as its message, and the
processing re-raises. -/
theorem publish_failure_overwrites_sent_trace :
    (process_authentication_request [] "m1" "d1" 7 "ttl" (HttpResult.response 200 none)
        (Except.error "publish down") (Except.error "publish down")).store =
      [{ message_id := "m1", document_id := "d1", id_citizen := 7, document_title := "ttl"
       , status := TraceStatus.ERROR, authenticated := false, message := "publish down"
       , external_api_status_code := some 200, event_published := false }]
    ∧ (process_authentication_request [] "m1" "d1" 7 "ttl" (HttpResult.response 200 none)
        (Except.error "publish down") (Except.error "publish down")).outcome =
      Except.error "publish down"
    ∧ TraceStatus.ERROR ≠ TraceStatus.SENT := by
  decide

/-- C5 counterexample: a document-authentication call completing with the
non-success status 400 leaves the single trace in status SENT (with
`authenticated = false`), not in ERROR or FAILED as the claim states. -/
theorem doc_nonsuccess_not_error_counterexample :
    ((process_authentication_request [] "m1" "d1" 7 "ttl" (HttpResult.response 400 none)
        (Except.ok ()) (Except.ok ())).store.map (fun t => t.status)) = [TraceStatus.SENT]
    ∧ TraceStatus.SENT ≠ TraceStatus.ERROR
    ∧ TraceStatus.SENT ≠ TraceStatus.FAILED := by
  decide

/-- C5 (amended): a registration call completing with a status other than 201
marks the trace ERROR with the status recorded in its message, and the service
returns the trace without raising so the delivery is acked without requeue; a
registration call returning 201 yields a SENT trace; a document-authentication
call completing with a status other than 200 also returns without raising, but
its trace stays in status SENT with `authenticated = false` and the status
recorded in its message. -/
theorem nonsuccess_status_marking
    (store : List CitizenRegistrationTrace) (mid : String) (idc : Int) (st : Int)
    (b : Option JsonObj) (h : regFind store mid = none) (hst : st ≠ 201)
    (dstore : List DocumentAuthenticationTrace) (dmid docId : String) (didc : Int)
    (title : String) (st2 : Int) (b2 : Option JsonObj) (pub2 : Except String Unit)
    (hd : docFind dstore dmid = none) (hst2 : st2 ≠ 200) :
    (process_auth_registration_event store mid idc (.response st b)).outcome =
      .ok { message_id := mid, id_citizen := idc, status := .ERROR
          , external_api_status_code := none, external_api_response := none
          , error_message := "Registration failed: " ++ toString st }
    ∧ (process_auth_registration_event store mid idc (.response 201 b)).outcome =
      .ok { message_id := mid, id_citizen := idc, status := .SENT
          , external_api_status_code := some 201, external_api_response := b
          , error_message := "" }
    ∧ (process_authentication_request dstore dmid docId didc title (.response st2 b2)
          (Except.ok ()) pub2).outcome =
      .ok { message_id := dmid, document_id := docId, id_citizen := didc
          , document_title := title, status := .SENT, authenticated := false
          , message := "Document authentication failed: " ++ toString st2
          , external_api_status_code := some st2, event_published := true } := by
  refine ⟨?_, ?_, ?_⟩
  · simp [process_auth_registration_event, reg_call_and_mark, register_citizen, h, hst,
      CitizenRegistrationTrace.mark_as_error]
  · simp [process_auth_registration_event, reg_call_and_mark, register_citizen, h,
      CitizenRegistrationTrace.mark_as_sent]
  · simp [process_authentication_request, doc_call_mark_publish, authenticate_document, hd,
      hst2, DocumentAuthenticationTrace.mark_as_authenticated,
      DocumentAuthenticationTrace.mark_event_published]

/-- Witness for `nonsuccess_status_marking` at concrete status 400. -/
theorem nonsuccess_status_marking_witness :
    (process_auth_registration_event [] "m1" 42 (HttpResult.response 400 none)).outcome =
      .ok { message_id := "m1", id_citizen := 42, status := .ERROR
          , external_api_status_code := none, external_api_response := none
          , error_message := "Registration failed: " ++ toString (400 : Int) }
    ∧ (process_auth_registration_event [] "m1" 42 (HttpResult.response 201 none)).outcome =
      .ok { message_id := "m1", id_citizen := 42, status := .SENT
          , external_api_status_code := some 201, external_api_response := none
          , error_message := "" }
    ∧ (process_authentication_request [] "m2" "d1" 7 "ttl" (HttpResult.response 400 none)
          (Except.ok ()) (Except.ok ())).outcome =
      .ok { message_id := "m2", document_id := "d1", id_citizen := 7
          , document_title := "ttl", status := .SENT, authenticated := false
          , message := "Document authentication failed: " ++ toString (400 : Int)
          , external_api_status_code := some 400, event_published := true } :=
  nonsuccess_status_marking [] "m1" 42 400 none rfl (by decide)
    [] "m2" "d1" 7 "ttl" 400 none (Except.ok ()) rfl (by decide)

/-- C4 counterexample: with a valid positive id, an upstream 200 produces a
200 response whose body is the fixed existence object, not the external
payload; and a completed upstream status 403 produces 204 with empty body,
not 500. -/
theorem lookup_endpoint_counterexample :
    check_citizen_exists "42" (HttpResult.response 200 (some [("id", JsonPrim.numVal 7)])) =
      (200, ResponseBody.obj [("exists", JsonPrim.boolVal true)])
    ∧ ResponseBody.obj [("exists", JsonPrim.boolVal true)] ≠
        ResponseBody.obj [("id", JsonPrim.numVal 7)]
    ∧ check_citizen_exists "42" (HttpResult.response 403 none) = (204, ResponseBody.empty)
    ∧ (204 : Int) ≠ 500 := by
  decide

/-- C4 (amended): for an authenticated request, an upstream 200 with a JSON
body yields 200 with the fixed body recording existence (not the external
payload); an upstream 200 without a parseable body raises inside the
unguarded `response.json()` and yields 500; an upstream 204 — and any other
completed upstream status — yields 204 with an empty body; an id that does
not parse as a positive integer yields 400; a transport error yields 500. -/
theorem lookup_endpoint_mapping
    (s : String) (n : Int) (hp : parseCitizenId s = some n) (d : JsonObj)
    (st : Int) (b : Option JsonObj) (hne : st ≠ 200)
    (s2 : String) (hbad : parseCitizenId s2 = none) (api2 : HttpResult) (em : String) :
    check_citizen_exists s (.response 200 (some d)) =
      (200, .obj [("exists", .boolVal true)])
    ∧ check_citizen_exists s (.response 200 none) =
      (500, .obj [("error", .strVal "Internal server error")])
    ∧ check_citizen_exists s (.response st b) = (204, .empty)
    ∧ check_citizen_exists s2 api2 = (400, .obj [("error", .strVal "Invalid citizen ID")])
    ∧ check_citizen_exists s (.exn em) =
      (500, .obj [("error", .strVal "Internal server error")]) := by
  refine ⟨?_, ?_, ?_, ?_, ?_⟩
  · simp [check_citizen_exists, validate_citizen, hp]
  · simp [check_citizen_exists, validate_citizen, hp]
  · by_cases h204 : st = 204 <;>
      simp [check_citizen_exists, validate_citizen, hp, hne, h204]
  · simp [check_citizen_exists, hbad]
  · simp [check_citizen_exists, validate_citizen, hp]

/-- Witness for `lookup_endpoint_mapping` at id 42, a JSON body, a body-less
200 and upstream 403. -/
theorem lookup_endpoint_mapping_witness :
    check_citizen_exists "42" (HttpResult.response 200 (some [("id", JsonPrim.numVal 7)])) =
      (200, .obj [("exists", .boolVal true)])
    ∧ check_citizen_exists "42" (HttpResult.response 200 none) =
      (500, .obj [("error", .strVal "Internal server error")])
    ∧ check_citizen_exists "42" (HttpResult.response 403 none) = (204, .empty)
    ∧ check_citizen_exists "abc" (HttpResult.response 200 none) =
      (400, .obj [("error", .strVal "Invalid citizen ID")])
    ∧ check_citizen_exists "42" (HttpResult.exn "connection timed out") =
      (500, .obj [("error", .strVal "Internal server error")]) :=
  lookup_endpoint_mapping "42" 42 (by decide) [("id", JsonPrim.numVal 7)] 403 none (by decide)
    "abc" (by decide) (HttpResult.response 200 none) "connection timed out"

/-- C6 counterexample: a well-formed, correctly signed, unexpired token whose
grant-type claim is the empty string — a value different from
client_credentials — is accepted, because the truthiness test
(`if grant_type and ...`) skips the grant check for falsy values. -/
theorem empty_grant_type_accepted_counterexample :
    (validate_token (some { wellFormed := true, signatureValid := true, payload := { exp := some 1000, client_id := some "svc", scope := none, grant_type := some "" } }) 0).valid = true
    ∧ ("" : String) ≠ "client_credentials" := by
  decide

/-- C6 (amended): the validator rejects a token missing the exp claim or the
client_id claim, rejects an expired token, and rejects a token carrying a
non-empty grant-type claim different from client_credentials — an
empty-string grant-type is treated like an absent one; a well-formed,
correctly signed, unexpired token with exp and client_id present and
grant-type absent, empty, or equal to client_credentials is accepted with its
claims returned. -/
theorem token_validator_checks (t : JwtToken) (now : Int) (e : Int) (cid g : String) :
    (t.payload.exp = none → (validate_token (some t) now).valid = false)
    ∧ (t.payload.client_id = none → (validate_token (some t) now).valid = false)
    ∧ (t.payload.exp = some e → e ≤ now → (validate_token (some t) now).valid = false)
    ∧ (t.wellFormed = true → t.signatureValid = true → t.payload.exp = some e → now < e →
        t.payload.client_id = some cid → t.payload.grant_type = some g → g ≠ "" →
        g ≠ "client_credentials" → (validate_token (some t) now).valid = false)
    ∧ (t.wellFormed = true → t.signatureValid = true → t.payload.exp = some e → now < e →
        t.payload.client_id = some cid →
        (t.payload.grant_type = none ∨ t.payload.grant_type = some ""
          ∨ t.payload.grant_type = some "client_credentials") →
        validate_token (some t) now =
          { valid := true, client_id := some cid, scope := some (t.payload.scope.getD "")
          , exp := some e, error := none }) := by
  refine ⟨?_, ?_, ?_, ?_, ?_⟩
  · intro h
    cases hw : t.wellFormed <;> cases hs : t.signatureValid <;>
      simp [validate_token, jwtDecode, h, hw, hs]
  · intro h
    cases hw : t.wellFormed <;> cases hs : t.signatureValid <;>
      rcases he : t.payload.exp with _ | e2 <;>
      simp [validate_token, jwtDecode, h, hw, hs, he]
  · intro he hle
    cases hw : t.wellFormed <;> cases hs : t.signatureValid <;>
      rcases hc : t.payload.client_id with _ | c2 <;>
      simp [validate_token, jwtDecode, he, hle, hw, hs, hc]
  · intro hw hs he hlt hc hg hge hgc
    simp [validate_token, jwtDecode, truthyStr, hw, hs, he, hc, hg, hge, hgc,
      not_le.mpr hlt]
  · intro hw hs he hlt hc hg
    rcases hg with hg | hg | hg <;>
      simp [validate_token, jwtDecode, truthyStr, hw, hs, he, hc, hg, not_le.mpr hlt]

/-- Witness for `token_validator_checks`: a concrete well-formed
client-credentials token is accepted with its claims returned. -/
theorem token_validator_checks_witness :
    validate_token (some { wellFormed := true, signatureValid := true, payload := { exp := some 1700000000, client_id := some "auth-ms", scope := some "read", grant_type := some "client_credentials" } })
      1600000000 =
      { valid := true, client_id := some "auth-ms", scope := some "read"
      , exp := some 1700000000, error := none } := by
  have h := token_validator_checks
    { wellFormed := true, signatureValid := true, payload := { exp := some 1700000000, client_id := some "auth-ms", scope := some "read", grant_type := some "client_credentials" } }
    1600000000 1700000000 "auth-ms" "x"
  exact h.2.2.2.2 rfl rfl rfl (by decide) rfl (Or.inr (Or.inr rfl))

/-- C8 counterexample: 503 is in the configured forcelist and the GET used by
the existence check is status-retried on it, but the PUT used by document
authentication is not among the allowed methods, so its 503 responses are not
retried. -/
theorem put_not_status_retried_counterexample :
    sessionRetryStrategy.status_forcelist.contains 503 = true
    ∧ Retry.retries_status sessionRetryStrategy validateCitizenMethod 503 = true
    ∧ Retry.retries_status sessionRetryStrategy authenticateDocumentMethod 503 = false := by
  decide

/-- C8 (amended): the session retry strategy has a budget of 3 retries with
exponential backoff from backoff factor 1 (no sleep before the first retry,
then 2 s, 4 s, capped at 120 s) and retries the fixed status set
429/500/502/503/504 — but only for the methods HEAD, GET, OPTIONS and POST:
the existence check (GET) and the registration (POST) are status-retried,
while the document-authentication PUT is not; connection-establishment errors
are still retried for every method, and each call passes the default
30-second timeout. -/
theorem retry_policy (st : Int) (hst : st ∈ sessionRetryStrategy.status_forcelist) :
    Retry.retries_status sessionRetryStrategy validateCitizenMethod st = true
    ∧ Retry.retries_status sessionRetryStrategy registerCitizenMethod st = true
    ∧ Retry.retries_status sessionRetryStrategy authenticateDocumentMethod st = false
    ∧ sessionRetryStrategy.total = 3
    ∧ sessionRetryStrategy.status_forcelist = [429, 500, 502, 503, 504]
    ∧ sessionRetryStrategy.backoff_factor = 1
    ∧ Retry.get_backoff_time sessionRetryStrategy 1 = 0
    ∧ Retry.get_backoff_time sessionRetryStrategy 2 = 2
    ∧ Retry.get_backoff_time sessionRetryStrategy 3 = 4
    ∧ Retry.retries_connect_error sessionRetryStrategy = true
    ∧ EXTERNAL_API_TIMEOUT = 30 := by
  fin_cases hst <;> decide

/-- Witness for `retry_policy` at status 503. -/
theorem retry_policy_witness :
    Retry.retries_status sessionRetryStrategy validateCitizenMethod 503 = true
    ∧ Retry.retries_status sessionRetryStrategy registerCitizenMethod 503 = true
    ∧ Retry.retries_status sessionRetryStrategy authenticateDocumentMethod 503 = false
    ∧ sessionRetryStrategy.total = 3
    ∧ sessionRetryStrategy.status_forcelist = [429, 500, 502, 503, 504]
    ∧ sessionRetryStrategy.backoff_factor = 1
    ∧ Retry.get_backoff_time sessionRetryStrategy 1 = 0
    ∧ Retry.get_backoff_time sessionRetryStrategy 2 = 2
    ∧ Retry.get_backoff_time sessionRetryStrategy 3 = 4
    ∧ Retry.retries_connect_error sessionRetryStrategy = true
    ∧ EXTERNAL_API_TIMEOUT = 30 :=
  retry_policy 503 (by decide)

/-- Any string with a non-empty prefix is non-empty. -/
theorem prefix_append_ne_empty {s m : String} (hs : s.length ≠ 0) : s ++ m ≠ "" := by
  intro hcontra
  have hlen := congrArg String.length hcontra
  rw [String.length_append] at hlen
  exact hs (Nat.eq_zero_of_add_eq_zero_right hlen)

/-- C10: `validate_token` is total — it returns a result dictionary with a
boolean validity flag on every input, raising nothing — and whenever
validation fails (empty token, malformed token, bad signature, missing
required claim, expiry, wrong grant type) the result carries a non-empty
error string describing the denial. -/
theorem validate_token_failure_has_error (token : Option JwtToken) (now : Int)
    (h : (validate_token token now).valid = false) :
    (validate_token token now).error ≠ none
    ∧ (validate_token token now).error ≠ some "" := by
  cases token with
  | none => exact ⟨by simp [validate_token], by simp [validate_token]⟩
  | some t =>
    cases hd : jwtDecode t now with
    | ok payload =>
      by_cases hg : (truthyStr payload.grant_type
          && payload.grant_type != some "client_credentials") = true
      · constructor <;> simp [validate_token, hd, hg]
      · simp [validate_token, hd, hg] at h
    | expiredSignature =>
      constructor <;> simp [validate_token, hd]
    | invalidToken m =>
      refine ⟨by simp [validate_token, hd], ?_⟩
      simp only [validate_token, hd, ne_eq, Option.some.injEq]
      exact prefix_append_ne_empty (by decide)

/-- Witness for `validate_token_failure_has_error` at the empty token. -/
theorem validate_token_failure_has_error_witness :
    (validate_token none 0).error ≠ none ∧ (validate_token none 0).error ≠ some "" :=
  validate_token_failure_has_error none 0 rfl

end Connectivity
